import Mathlib

/-!
Verification of the nc2 repository's build artifacts: the webpack bundler
configuration (src/wasm/www/webpack.config.js) and the container provisioning
recipe (src/Dockerfile), shallowly embedded as Lean values with executable
semantics for the external tools that consume them.
-/

/-- Embeds the regular-expression literal appearing as a module-rule `test`
in webpack.config.js.  The only pattern in the source is `/\.wasm$/`. -/
inductive RegexPattern
  | dotWasmEnd
deriving DecidableEq, Repr

/-- Matching function of the embedded pattern: `/\.wasm$/` accepts exactly the
strings that end with ".wasm" (stated over the character list of the string). -/
def RegexPattern.matchesB : RegexPattern → String → Bool
  | .dotWasmEnd, s => List.isSuffixOf ".wasm".data s.data

/-- The `output` object of webpack.config.js: a directory path and a filename. -/
structure Output where
  path : String
  filename : String
deriving DecidableEq, Repr

/-- One element of `module.rules` in webpack.config.js: a test pattern and the
loader it routes matching imports through. -/
structure Rule where
  test : RegexPattern
  use : String
deriving DecidableEq, Repr

/-- One `{from, to}` pair of the CopyWebpackPlugin `patterns` list.
(`from` is a Lean keyword, hence the field names `fromPath`/`toPath`.) -/
structure CopyPattern where
  fromPath : String
  toPath : String
deriving DecidableEq, Repr

/-- The plugin list of webpack.config.js holds a single kind of plugin:
`new CopyWebpackPlugin({patterns: [...]})`. -/
inductive Plugin
  | copyWebpackPlugin (patterns : List CopyPattern)
deriving DecidableEq, Repr

/-- The webpack `experiments` object (native WebAssembly support toggle).
The configuration under src does not set it; the spec's second variant does. -/
structure Experiments where
  asyncWebAssembly : Bool
deriving DecidableEq, Repr

/-- The shape of the object bound to `module.exports` in webpack.config.js.
`moduleRules` embeds `module.rules` (`module` is a Lean keyword). An absent
`experiments` key is `none`. -/
structure WebpackConfig where
  entry : String
  output : Output
  mode : String
  moduleRules : List Rule
  plugins : List Plugin
  experiments : Option Experiments
deriving DecidableEq, Repr

/-- Embeds Node's `path.resolve(base, rel)` for the one call in the source,
where `rel` ("dist") is relative: it joins `rel` onto `base`. -/
def pathResolve (base rel : String) : String := base ++ "/" ++ rel

/-- The configuration value of src/wasm/www/webpack.config.js, as a function of
the `__dirname` binding in effect when the file is evaluated. -/
def webpackConfig (dirname : String) : WebpackConfig :=
  { entry := "./index.js"
    output := { path := pathResolve dirname "dist", filename := "index.js" }
    mode := "development"
    moduleRules := [{ test := .dotWasmEnd, use := "wasm-loader" }]
    plugins := [.copyWebpackPlugin [{ fromPath := "index.html", toPath := "index.html" }]]
    experiments := none }

/-- The loaders that the module-rule list routes an import path through:
the `use` field of every rule whose `test` pattern matches the path. -/
def handlersFor (c : WebpackConfig) (p : String) : List String :=
  (c.moduleRules.filter (fun r => r.test.matchesB p)).map Rule.use

/-- Whether the native/experimental WebAssembly-import mode is enabled in a
configuration object. -/
def nativeWasmActive (c : WebpackConfig) : Bool :=
  match c.experiments with
  | none => false
  | some e => e.asyncWebAssembly

/-- Whether the explicit-loader strategy for `.wasm` imports is present in the
module-rule list. -/
def wasmLoaderActive (c : WebpackConfig) : Bool :=
  c.moduleRules.any (fun r => r.test == RegexPattern.dotWasmEnd && r.use == "wasm-loader")

/-- Claim C1: in the configuration produced by the composer, every import path
matching `\.wasm$` is routed through exactly the "wasm-loader" loader, and no
native/experimental WebAssembly-import flag is enabled in the same
configuration object, so exactly one `.wasm`-handling strategy is active. -/
theorem wasm_single_strategy (d p : String)
    (hp : RegexPattern.matchesB RegexPattern.dotWasmEnd p = true) :
    handlersFor (webpackConfig d) p = ["wasm-loader"] ∧
    nativeWasmActive (webpackConfig d) = false := by
  constructor
  · simp [handlersFor, webpackConfig, hp]
  · rfl

/-- Concrete instantiation of `wasm_single_strategy` at the import path
"m.wasm". -/
theorem wasm_single_strategy_witness :
    handlersFor (webpackConfig "/build/wasm/www") "m.wasm" = ["wasm-loader"] ∧
    nativeWasmActive (webpackConfig "/build/wasm/www") = false :=
  wasm_single_strategy "/build/wasm/www" "m.wasm" (by decide)

/-- Modelled from the spec: the second, native-support variant of the webpack
configuration ("two near-duplicate versions", spec section 1; "an
explicit-loader variant and a native-support variant", spec section 4.1).
Only the explicit-loader variant is present under src; per the spec the other
variant enables native asynchronous WebAssembly instantiation support in the
bundler itself instead of routing `.wasm` imports through the loader rule,
and is otherwise the same configuration. -/
def webpackConfigNative (dirname : String) : WebpackConfig :=
  { entry := "./index.js"
    output := { path := pathResolve dirname "dist", filename := "index.js" }
    mode := "development"
    moduleRules := []
    plugins := [.copyWebpackPlugin [{ fromPath := "index.html", toPath := "index.html" }]]
    experiments := some { asyncWebAssembly := true } }

/-- Claim C5: the explicit-loader variant and the native-support variant agree
on every configuration field other than the `.wasm`-handling strategy (entry,
output, mode and plugin list are equal), and they are mutually exclusive
alternate modes: the first has the loader rule active and the native flag off,
the second has the loader rule absent and the native flag on. -/
theorem variants_equivalent_modes (d : String) :
    (webpackConfig d).entry = (webpackConfigNative d).entry ∧
    (webpackConfig d).output = (webpackConfigNative d).output ∧
    (webpackConfig d).mode = (webpackConfigNative d).mode ∧
    (webpackConfig d).plugins = (webpackConfigNative d).plugins ∧
    wasmLoaderActive (webpackConfig d) = true ∧
    nativeWasmActive (webpackConfig d) = false ∧
    wasmLoaderActive (webpackConfigNative d) = false ∧
    nativeWasmActive (webpackConfigNative d) = true := by
  exact ⟨rfl, rfl, rfl, rfl, rfl, rfl, rfl, rfl⟩

/-- Concrete instantiation of `variants_equivalent_modes` at a fixed
configuration directory. -/
theorem variants_equivalent_modes_witness :
    (webpackConfig "/build/wasm/www").entry = (webpackConfigNative "/build/wasm/www").entry ∧
    (webpackConfig "/build/wasm/www").output = (webpackConfigNative "/build/wasm/www").output ∧
    (webpackConfig "/build/wasm/www").mode = (webpackConfigNative "/build/wasm/www").mode ∧
    (webpackConfig "/build/wasm/www").plugins = (webpackConfigNative "/build/wasm/www").plugins ∧
    wasmLoaderActive (webpackConfig "/build/wasm/www") = true ∧
    nativeWasmActive (webpackConfig "/build/wasm/www") = false ∧
    wasmLoaderActive (webpackConfigNative "/build/wasm/www") = false ∧
    nativeWasmActive (webpackConfigNative "/build/wasm/www") = true :=
  variants_equivalent_modes "/build/wasm/www"

/-- Outputs contributed by the copy patterns of one CopyWebpackPlugin instance:
each `{from, to}` pair copies the content found on disk at `from` to
`outDir/to`, byte for byte; a missing source file fails the build. -/
def copyOutputs (outDir : String) (fs : List (String × String)) :
    List CopyPattern → Option (List (String × String))
  | [] => some []
  | p :: ps =>
    match fs.lookup p.fromPath, copyOutputs outDir fs ps with
    | some content, some rest => some ((outDir ++ "/" ++ p.toPath, content) :: rest)
    | _, _ => none

/-- Outputs contributed by the plugin list of a configuration. -/
def pluginOutputs (outDir : String) (fs : List (String × String)) :
    List Plugin → Option (List (String × String))
  | [] => some []
  | .copyWebpackPlugin pats :: ps =>
    match copyOutputs outDir fs pats, pluginOutputs outDir fs ps with
    | some c, some rest => some (c ++ rest)
    | _, _ => none

/-- Modelled from the spec: the external bundler that consumes the
configuration (webpack itself is not part of the repository; spec section 4.1
gives its contract).  The disk is an association list from path to file
content; `transform` stands for the bundler's (arbitrary, input-determined)
translation of the entry module into the emitted bundle.  The bundler locates
the single entry file, emits one output script of name `output.filename`
inside `output.path`, and runs the copy plugin; if the entry file or any copy
source is absent the whole build fails (`none`) and no output tree is
produced. -/
def bundle (transform : String → String) (cfg : WebpackConfig)
    (fs : List (String × String)) : Option (List (String × String)) :=
  match fs.lookup cfg.entry with
  | none => none
  | some entryContent =>
    match pluginOutputs cfg.output.path fs cfg.plugins with
    | none => none
    | some copies =>
      some ((cfg.output.path ++ "/" ++ cfg.output.filename, transform entryContent) :: copies)

/-- Claim C2: the bundle step is deterministic — the configuration contains no
input-, time- or randomness-dependent fields, so the output tree is a function
of the entry file content and the HTML file content alone: two evaluations
over disks that agree on those two files (for any fixed bundler translation
and configuration directory) produce identical output trees. -/
theorem bundle_deterministic (t : String → String) (d : String)
    (fs1 fs2 : List (String × String))
    (he : fs1.lookup "./index.js" = fs2.lookup "./index.js")
    (hh : fs1.lookup "index.html" = fs2.lookup "index.html") :
    bundle t (webpackConfig d) fs1 = bundle t (webpackConfig d) fs2 := by
  simp only [bundle, webpackConfig, pluginOutputs, copyOutputs, he, hh]

/-- Concrete instantiation of `bundle_deterministic`: two distinct disks that
agree on the entry file and the HTML file yield the same output tree. -/
theorem bundle_deterministic_witness :
    bundle (fun s => s) (webpackConfig "/a")
        [("./index.js", "entry"), ("index.html", "page"), ("other.txt", "x")] =
      bundle (fun s => s) (webpackConfig "/a")
        [("index.html", "page"), ("./index.js", "entry")] :=
  bundle_deterministic (fun s => s) "/a"
    [("./index.js", "entry"), ("index.html", "page"), ("other.txt", "x")]
    [("index.html", "page"), ("./index.js", "entry")] (by decide) (by decide)

/-- Claim C3: the configuration declares exactly one entry module
("./index.js") and exactly one output descriptor (filename "index.js" in the
directory "dist" resolved relative to the configuration file), and every
successful build's output tree consists of exactly the emitted bundle and the
copied HTML file, both inside that directory. -/
theorem single_entry_single_output (t : String → String) (d : String)
    (fs out : List (String × String))
    (h : bundle t (webpackConfig d) fs = some out) :
    (webpackConfig d).entry = "./index.js" ∧
    (webpackConfig d).output = { path := pathResolve d "dist", filename := "index.js" } ∧
    out.length = 2 ∧
    out.map Prod.fst = [pathResolve d "dist" ++ "/" ++ "index.js",
                        pathResolve d "dist" ++ "/" ++ "index.html"] := by
  refine ⟨rfl, rfl, ?_⟩
  simp only [bundle, webpackConfig, pluginOutputs, copyOutputs] at h
  cases hE : fs.lookup "./index.js" with
  | none => rw [hE] at h; exact absurd h (by simp)
  | some e =>
    rw [hE] at h
    cases hH : fs.lookup "index.html" with
    | none => rw [hH] at h; exact absurd h (by simp)
    | some c =>
      rw [hH] at h
      cases h
      exact ⟨rfl, by simp⟩

/-- Concrete instantiation of `single_entry_single_output` on a disk holding
the entry file and the HTML file. -/
theorem single_entry_single_output_witness :
    (webpackConfig "/a").entry = "./index.js" ∧
    (webpackConfig "/a").output = { path := pathResolve "/a" "dist", filename := "index.js" } ∧
    ([("/a/dist/index.js", "entry"), ("/a/dist/index.html", "page")] :
        List (String × String)).length = 2 ∧
    ([("/a/dist/index.js", "entry"), ("/a/dist/index.html", "page")] :
        List (String × String)).map Prod.fst =
      [pathResolve "/a" "dist" ++ "/" ++ "index.js",
       pathResolve "/a" "dist" ++ "/" ++ "index.html"] :=
  single_entry_single_output (fun s => s) "/a"
    [("./index.js", "entry"), ("index.html", "page")]
    [("/a/dist/index.js", "entry"), ("/a/dist/index.html", "page")] (by decide)

/-- All copy patterns declared across the plugin list of a configuration. -/
def copyPatternsOf (c : WebpackConfig) : List CopyPattern :=
  c.plugins.foldr (fun p acc => match p with | .copyWebpackPlugin ps => ps ++ acc) []

/-- Claim C4: the copy step copies exactly one static HTML file, unchanged:
the copy-plugin's pattern list is the single pair {from: "index.html",
to: "index.html"}, and on every successful build the output tree holds, at
"index.html" inside the output directory, content byte-identical to the
source HTML file on disk. -/
theorem copy_html_byte_identical (t : String → String) (d : String)
    (fs out : List (String × String)) (content : String)
    (h : bundle t (webpackConfig d) fs = some out)
    (hc : fs.lookup "index.html" = some content) :
    copyPatternsOf (webpackConfig d) = [{ fromPath := "index.html", toPath := "index.html" }] ∧
    (pathResolve d "dist" ++ "/" ++ "index.html", content) ∈ out := by
  refine ⟨rfl, ?_⟩
  simp only [bundle, webpackConfig, pluginOutputs, copyOutputs, hc] at h
  cases hE : fs.lookup "./index.js" with
  | none => rw [hE] at h; exact absurd h (by simp)
  | some e =>
    rw [hE] at h
    cases h
    simp

/-- Concrete instantiation of `copy_html_byte_identical`. -/
theorem copy_html_byte_identical_witness :
    copyPatternsOf (webpackConfig "/a") =
      [{ fromPath := "index.html", toPath := "index.html" }] ∧
    (pathResolve "/a" "dist" ++ "/" ++ "index.html", "page") ∈
      ([("/a/dist/index.js", "entry"), ("/a/dist/index.html", "page")] :
        List (String × String)) :=
  copy_html_byte_identical (fun s => s) "/a"
    [("./index.js", "entry"), ("index.html", "page")]
    [("/a/dist/index.js", "entry"), ("/a/dist/index.html", "page")] "page"
    (by decide) (by decide)

/-- Claim C6: if the entry file named by the configuration is absent on disk,
the build fails and produces no output tree at all — in particular no
partially-populated output (no copied HTML without a bundle). -/
theorem entry_absent_build_fails (t : String → String) (d : String)
    (fs : List (String × String))
    (h : fs.lookup "./index.js" = none) :
    bundle t (webpackConfig d) fs = none := by
  simp only [bundle, webpackConfig, h]

/-- Concrete instantiation of `entry_absent_build_fails`: a disk holding only
the HTML file yields no output tree. -/
theorem entry_absent_build_fails_witness :
    bundle (fun s => s) (webpackConfig "/a") [("index.html", "page")] = none :=
  entry_absent_build_fails (fun s => s) "/a" [("index.html", "page")] (by decide)

/-- Shell commands appearing in the RUN instructions of src/Dockerfile. -/
inductive Cmd
  | aptUpdate
  | aptInstall (pkgs : List String)
  | curlPipeBash (url : String)
  | wgetFetch (url : String)
  | adduser (name : String)
  | rustupInstall (channel : String)
  | cargoInstall (pkg : String)
  | mkdir (dir : String)
deriving DecidableEq, Repr

/-- Dockerfile instructions used in src/Dockerfile.  `copyFrom` embeds
`COPY --from=stage --chown=owner:group src dst`. -/
inductive Instr
  | fromImage (image : String) (stageAlias : Option String)
  | run (c : Cmd)
  | user (name : String)
  | workdir (dir : String)
  | copyFrom (stage owner group src dst : String)
  | env (key value : String)
deriving DecidableEq, Repr

/-- The instruction sequence of src/Dockerfile, line by line. -/
def dockerfile : List Instr :=
  [ .fromImage "rust:slim-buster" (some "rust"),
    .fromImage "debian:stable-slim" none,
    .run .aptUpdate,
    .run (.aptInstall ["python3", "python3-dev", "curl", "gcc", "pkg-config",
                       "libssl-dev", "xvfb", "libxi6", "libnss3", "wget"]),
    .run (.curlPipeBash "https://deb.nodesource.com/setup_14.x"),
    .run (.aptInstall ["nodejs"]),
    .run (.wgetFetch "https://dl.google.com/linux/direct/google-chrome-stable_current_amd64.deb"),
    .run (.aptInstall ["./google-chrome-stable_current_amd64.deb"]),
    .run (.adduser "app"),
    .user "app",
    .workdir "/home/app",
    .copyFrom "rust" "app" "app" "/usr/local/cargo" "/home/app/.cargo",
    .env "PATH" "/home/app/.cargo/bin:$PATH",
    .run (.rustupInstall "stable"),
    .run (.cargoInstall "wasm-pack"),
    .run (.mkdir "nc2"),
    .workdir "nc2" ]

/-- Image-build state tracked by the semantics: the accounts that exist, the
effective user, the working directory, the PATH search list, which binaries
each directory on disk holds, which paths are owned by which account, and the
packages installed so far. -/
structure SysState where
  users : List String
  currentUser : String
  cwd : String
  pathDirs : List String
  binDirs : List (String × List String)
  owned : List (String × String)
  installedPkgs : List String
deriving DecidableEq, Repr

/-- The base image state (debian:stable-slim): only root exists, the standard
Debian search path is in effect, and no toolchain binaries are present. -/
def initState : SysState :=
  { users := ["root"]
    currentUser := "root"
    cwd := "/"
    pathDirs := ["/usr/local/sbin", "/usr/local/bin", "/usr/sbin", "/usr/bin",
                 "/sbin", "/bin"]
    binDirs := []
    owned := []
    installedPkgs := [] }

/-- Command-name resolution against the search path: the first PATH directory
holding a binary of that name. -/
def resolveBin (s : SysState) (b : String) : Option String :=
  s.pathDirs.find? (fun dir => ((s.binDirs.lookup dir).getD []).contains b)

/-- Modelled from the spec: the contents of the named build stage (the recipe
itself only names the stage; the staged image rust:slim-buster is not part of
the repository).  Per the spec, the systems-language toolchain lives in the
stage's /usr/local/cargo, whose bin subdirectory holds the toolchain commands
rustup and cargo. -/
def stageBinDir (stage src : String) : List String :=
  if stage == "rust" && src == "/usr/local/cargo" then ["cargo", "rustup"] else []

/-- Splits a character list at every colon (helper for ENV PATH expansion). -/
def splitOnColon : List Char → List (List Char)
  | [] => [[]]
  | c :: cs =>
    match splitOnColon cs with
    | [] => if c == ':' then [[], []] else [[c]]
    | seg :: rest => if c == ':' then [] :: seg :: rest else (c :: seg) :: rest

/-- Shell expansion of an ENV PATH value: split on ":" and substitute the
previous search list for the "$PATH" reference. -/
def expandPathValue (v : String) (cur : List String) : List String :=
  (splitOnColon v.data).foldr
    (fun s acc => if s == "$PATH".data then cur ++ acc else String.mk s :: acc) []

/-- Resolution of a WORKDIR operand or mkdir operand against the current
working directory. -/
def joinPath (cwd d : String) : String :=
  if List.isPrefixOf ['/'] d.data then d else cwd ++ "/" ++ d

/-- Adds a freshly installed binary to a directory's contents. -/
def addBin (bd : List (String × List String)) (dir b : String) :
    List (String × List String) :=
  bd.map (fun e => if e.1 == dir then (e.1, e.2 ++ [b]) else e)

/-- Semantics of one RUN command.  Package-manager and download steps always
succeed (network effects are out of scope); `adduser` creates an unprivileged
account and its home directory owned by that account; `rustup` and `cargo`
invocations fail unless the command resolves on the search path — this is the
observable ordering dependency of the recipe; `cargo install` places the
installed tool next to cargo itself; `mkdir` creates a directory owned by the
effective user under the working directory. -/
def runCmd (s : SysState) : Cmd → Option SysState
  | .aptUpdate => some s
  | .aptInstall pkgs => some { s with installedPkgs := s.installedPkgs ++ pkgs }
  | .curlPipeBash _ => some s
  | .wgetFetch _ => some s
  | .adduser n =>
      some { s with users := s.users ++ [n]
                    owned := s.owned ++ [("/home/" ++ n, n)] }
  | .rustupInstall _ =>
      match resolveBin s "rustup" with
      | some _ => some s
      | none => none
  | .cargoInstall p =>
      match resolveBin s "cargo" with
      | some dir => some { s with binDirs := addBin s.binDirs dir p }
      | none => none
  | .mkdir d =>
      some { s with owned := s.owned ++ [(joinPath s.cwd d, s.currentUser)] }

/-- Semantics of one Dockerfile instruction of the final image.  FROM lines
are stage declarations (the base state models the second FROM); USER requires
the account to exist; COPY --from transfers the stage directory, assigns the
given owner, and registers the transferred bin directory's binaries; ENV PATH
replaces the search list after expansion. -/
def step (s : SysState) : Instr → Option SysState
  | .fromImage _ _ => some s
  | .run c => runCmd s c
  | .user n => if s.users.contains n then some { s with currentUser := n } else none
  | .workdir d => some { s with cwd := joinPath s.cwd d }
  | .copyFrom stage owner _ src dst =>
      some { s with owned := s.owned ++ [(dst, owner)]
                    binDirs := s.binDirs ++ [(dst ++ "/bin", stageBinDir stage src)] }
  | .env k v =>
      if k == "PATH" then some { s with pathDirs := expandPathValue v s.pathDirs }
      else some s

/-- Fail-fast execution of an instruction sequence: the first failing step
aborts the whole build. -/
def exec (s : SysState) : List Instr → Option SysState
  | [] => some s
  | i :: rest =>
    match step s i with
    | none => none
    | some s2 => exec s2 rest

/-- State reached after the first `k` instructions of src/Dockerfile. -/
def execPrefix (k : Nat) : Option SysState := exec initState (dockerfile.take k)

/-- Recognizes RUN instructions (the steps that execute as the effective
user). -/
def isRunInstr : Instr → Bool
  | .run _ => true
  | _ => false

/-- Index of the first package-installation step that installs the given
package or local package file. -/
def aptInstallIdx (pkg : String) : Option Nat :=
  dockerfile.findIdx? (fun i =>
    match i with
    | .run (.aptInstall pkgs) => pkgs.contains pkg
    | _ => false)

/-- Index of the first RUN instruction executing the given command. -/
def runIdx (c : Cmd) : Option Nat :=
  dockerfile.findIdx? (fun i => i == .run c)

/-- Strict order on optional step indices: both steps exist and the first
comes strictly earlier. -/
def optLt : Option Nat → Option Nat → Bool
  | some a, some b => Nat.blt a b
  | _, _ => false

/-- Claim C7: the toolchain is copied into place (instruction 11), put on the
search path (instruction 12) and installed (instruction 13) strictly before
the packaging tool wasm-pack is installed (instruction 14); running the
packaging-tool installation before those toolchain steps fails (the cargo
command does not resolve), while the recipe in its given order runs to
completion — the ordering is a hard precondition. -/
theorem toolchain_before_packaging_tool :
    dockerfile.get? 11 = some (.copyFrom "rust" "app" "app" "/usr/local/cargo" "/home/app/.cargo") ∧
    dockerfile.get? 12 = some (.env "PATH" "/home/app/.cargo/bin:$PATH") ∧
    dockerfile.get? 13 = some (.run (.rustupInstall "stable")) ∧
    dockerfile.get? 14 = some (.run (.cargoInstall "wasm-pack")) ∧
    exec initState (dockerfile.take 11 ++ [.run (.cargoInstall "wasm-pack")]) = none ∧
    (execPrefix 17).isSome = true := by
  decide

/-- Claim C8: the recipe creates the dedicated account "app" (instruction 8),
which is distinct from root; every RUN step after the account creation
executes with "app" as the effective user; and in the final state every path
owned by "app" is its home/working directory /home/app or lies beneath it. -/
theorem app_user_unprivileged (k : Nat) (h1 : 8 < k) (h2 : k < 17)
    (h3 : isRunInstr (dockerfile.getD k (.run .aptUpdate)) = true) :
    dockerfile.get? 8 = some (.run (.adduser "app")) ∧
    "app" ≠ "root" ∧
    (execPrefix k).map SysState.currentUser = some "app" ∧
    (execPrefix 17).map (fun s =>
      s.owned.all (fun e => e.2 != "app" ||
        (e.1 == "/home/app" || List.isPrefixOf "/home/app/".data e.1.data))) = some true := by
  have hall : ∀ j, j < 17 → 8 < j →
      isRunInstr (dockerfile.getD j (.run .aptUpdate)) = true →
      (execPrefix j).map SysState.currentUser = some "app" := by decide
  exact ⟨by decide, by decide, hall k h2 h1 h3, by decide⟩

/-- Concrete instantiation of `app_user_unprivileged` at the first RUN step
after the account creation (instruction 13, the toolchain installation). -/
theorem app_user_unprivileged_witness :
    dockerfile.get? 8 = some (.run (.adduser "app")) ∧
    "app" ≠ "root" ∧
    (execPrefix 13).map SysState.currentUser = some "app" ∧
    (execPrefix 17).map (fun s =>
      s.owned.all (fun e => e.2 != "app" ||
        (e.1 == "/home/app" || List.isPrefixOf "/home/app/".data e.1.data))) = some true :=
  app_user_unprivileged 13 (by decide) (by decide) (by decide)

/-- Claim C9 counterexample: the claim's ordering places the headless-browser
binary installation strictly before the JavaScript-runtime installation, but
in src/Dockerfile the JavaScript runtime is installed at step 5 and the
browser binary at step 7, so the claimed order does not hold. -/
theorem install_order_counterexample :
    aptInstallIdx "nodejs" = some 5 ∧
    aptInstallIdx "./google-chrome-stable_current_amd64.deb" = some 7 ∧
    optLt (aptInstallIdx "./google-chrome-stable_current_amd64.deb")
      (aptInstallIdx "nodejs") = false := by
  decide

/-- Claim C9 as amended: the first package step installs the scripting
interpreter and its development headers, the TLS library and headers, the
compiler and package-config tool, and the browser's runtime shared libraries
together (step 3); the JavaScript runtime follows (step 5); the
headless-browser binary is installed after the JavaScript runtime (step 7);
and the systems-language toolchain (step 13) plus its packaging tool
(step 14) come last. -/
theorem install_order_amended :
    aptInstallIdx "python3" = some 3 ∧
    aptInstallIdx "python3-dev" = some 3 ∧
    aptInstallIdx "libssl-dev" = some 3 ∧
    aptInstallIdx "gcc" = some 3 ∧
    aptInstallIdx "pkg-config" = some 3 ∧
    aptInstallIdx "xvfb" = some 3 ∧
    aptInstallIdx "libxi6" = some 3 ∧
    aptInstallIdx "libnss3" = some 3 ∧
    aptInstallIdx "nodejs" = some 5 ∧
    aptInstallIdx "./google-chrome-stable_current_amd64.deb" = some 7 ∧
    runIdx (.rustupInstall "stable") = some 13 ∧
    runIdx (.cargoInstall "wasm-pack") = some 14 ∧
    optLt (aptInstallIdx "python3") (aptInstallIdx "nodejs") = true ∧
    optLt (aptInstallIdx "nodejs")
      (aptInstallIdx "./google-chrome-stable_current_amd64.deb") = true ∧
    optLt (aptInstallIdx "./google-chrome-stable_current_amd64.deb")
      (runIdx (.rustupInstall "stable")) = true ∧
    optLt (runIdx (.rustupInstall "stable")) (runIdx (.cargoInstall "wasm-pack")) = true := by
  decide

/-- Claim C10: the toolchain directory originates from the build stage named
"rust" (image rust:slim-buster, instruction 0), is copied into the
unprivileged user's home with that user as owner (instruction 11), the PATH
declaration prepends /home/app/.cargo/bin to the inherited search list
(instruction 12), and in every state from that declaration on, the toolchain
commands rustup and cargo both resolve to the per-user copy at
/home/app/.cargo/bin — the first directory of the search path — rather than
to any system-wide location. -/
theorem per_user_toolchain_resolution (k : Nat) (h1 : 13 ≤ k) (h2 : k ≤ 17) :
    dockerfile.get? 0 = some (.fromImage "rust:slim-buster" (some "rust")) ∧
    dockerfile.get? 11 = some (.copyFrom "rust" "app" "app" "/usr/local/cargo" "/home/app/.cargo") ∧
    dockerfile.get? 12 = some (.env "PATH" "/home/app/.cargo/bin:$PATH") ∧
    (execPrefix 12).map (fun s => s.owned.contains ("/home/app/.cargo", "app")) = some true ∧
    (execPrefix 13).map SysState.pathDirs = some ("/home/app/.cargo/bin" :: initState.pathDirs) ∧
    (execPrefix k).map (fun s => resolveBin s "rustup") = some (some "/home/app/.cargo/bin") ∧
    (execPrefix k).map (fun s => resolveBin s "cargo") = some (some "/home/app/.cargo/bin") := by
  have hall : ∀ j, j < 18 → 13 ≤ j →
      (execPrefix j).map (fun s => resolveBin s "rustup") = some (some "/home/app/.cargo/bin") ∧
      (execPrefix j).map (fun s => resolveBin s "cargo") = some (some "/home/app/.cargo/bin") := by
    decide
  exact ⟨by decide, by decide, by decide, by decide, by decide,
    (hall k (by omega) h1).1, (hall k (by omega) h1).2⟩

/-- Concrete instantiation of `per_user_toolchain_resolution` at the state in
which the packaging-tool installation runs (instruction 14). -/
theorem per_user_toolchain_resolution_witness :
    dockerfile.get? 0 = some (.fromImage "rust:slim-buster" (some "rust")) ∧
    dockerfile.get? 11 = some (.copyFrom "rust" "app" "app" "/usr/local/cargo" "/home/app/.cargo") ∧
    dockerfile.get? 12 = some (.env "PATH" "/home/app/.cargo/bin:$PATH") ∧
    (execPrefix 12).map (fun s => s.owned.contains ("/home/app/.cargo", "app")) = some true ∧
    (execPrefix 13).map SysState.pathDirs = some ("/home/app/.cargo/bin" :: initState.pathDirs) ∧
    (execPrefix 14).map (fun s => resolveBin s "rustup") = some (some "/home/app/.cargo/bin") ∧
    (execPrefix 14).map (fun s => resolveBin s "cargo") = some (some "/home/app/.cargo/bin") :=
  per_user_toolchain_resolution 14 (by decide) (by decide)
